import Mathlib

/-!
Verification of the chat/conversation subsystem and the threaded-comment
builder of the Moringa-daily backend, shallowly embedded from
`server/app.py` (revision 20250507145350 for chat and comment trees,
revision 20250427081731 for comment posting).

The relational store is modelled as in-memory lists of rows; autoincrement
primary keys are modelled by explicit `next_*` counters; `db.session.commit`
is modelled by the state update taking effect (each commit is atomic and
immediately visible, matching the spec's persistence assumption).  Rows
returned by an unordered query (`.all()` with no `order_by`) are modelled in
insertion (rowid) order.
-/

namespace Moringa

/-- HTTP method of a chat request (`/chats/<recipient_id>` accepts GET and POST). -/
inductive Method where
  | GET
  | POST
deriving DecidableEq, Repr

/-- Row of the `users` table (only the columns the chat subsystem reads). -/
structure User where
  id : Nat
  username : String
deriving DecidableEq, Repr

/-- Row of the `profiles` table (`receiver.profile.profile_picture`). -/
structure Profile where
  user_id : Nat
  profile_picture : Option String
deriving DecidableEq, Repr

/-- Row of the `conversations` table: a canonicalized pair of participants. -/
structure Conversation where
  id : Nat
  user1_id : Nat
  user2_id : Nat
deriving DecidableEq, Repr

/-- Row of the `messages` table.  `timestamp` is the creation time set by the
model default at insert; modelled as a `Nat` supplied by the caller as `now`. -/
structure Message where
  id : Nat
  conversation_id : Nat
  sender_id : Nat
  recipient_id : Nat
  content : String
  timestamp : Nat
deriving DecidableEq, Repr

/-- Payload shape of the `new_chat` socket event the source's line 411 tries
to emit.  The name `emit` is never imported in the module (line 10 imports
only `SocketIO` from flask_socketio), so no event of this shape is ever
actually constructed or delivered. -/
structure ChatEvent where
  id : Nat
  receiverName : String
  lastMessage : String
  lastMessageTime : Nat
  avatarUrl : Option String
deriving DecidableEq, Repr

/-- The store plus the socket state: `channels` is the set of currently
connected client channels; `delivered` records every (channel, event)
delivery, appended in emission order.  Since the module's `emit` call always
raises `NameError`, the program never appends to it. -/
structure DB where
  users : List User
  profiles : List Profile
  conversations : List Conversation
  messages : List Message
  next_conv_id : Nat
  next_msg_id : Nat
  channels : List Nat
  delivered : List (Nat × ChatEvent)
deriving DecidableEq, Repr

/-- Observable outcome of a chat request: a 200 JSON list of message bodies
(`jsonify([])` for the GET-before-create path is the empty list response),
a 201 `sent` acknowledgement, or a 500 error produced by the global
`handle_exception` handler. -/
inductive ChatResponse where
  | messages (contents : List String)
  | sent
  | error (msg : String)
deriving DecidableEq, Repr

/-- `Conversation.query.filter_by(user1_id=min(current_user, recipient_id),
user2_id=max(current_user, recipient_id)).first()` (app.py lines 378-381). -/
def findConv (db : DB) (a b : Nat) : Option Conversation :=
  db.conversations.find? (fun c => c.user1_id == min a b && c.user2_id == max a b)

/-- `Conversation(user1_id=min(...), user2_id=max(...))`; `db.session.add`;
`db.session.commit` (app.py lines 385-390). -/
def createConv (db : DB) (a b : Nat) : DB × Conversation :=
  let c : Conversation := ⟨db.next_conv_id, min a b, max a b⟩
  ({ db with conversations := db.conversations ++ [c],
             next_conv_id := db.next_conv_id + 1 }, c)

/-- POST body of `handle_chat`, lines 394-419: read `data['content']` (a
missing field raises and is turned into a 500 by `handle_exception`, with the
state as already committed); insert and commit the `Message`; fetch sender and
receiver (`User.query.get` returns None silently when absent); then evaluate
the `emit(...)` call of line 411.  `emit` is never imported or defined in the
module, and Python resolves the callee name before evaluating its arguments,
so every POST that reaches this point raises `NameError` — before
`receiver.username` is ever read — and `handle_exception` answers 500.  No
event is delivered and the 201 `sent` line is unreachable; the committed
message row remains. -/
def postMessage (db : DB) (conv : Conversation) (current_user recipient_id : Nat)
    (data : Option String) (now : Nat) : DB × ChatResponse :=
  match data with
  | none => (db, .error "KeyError: content")
  | some content =>
    let msg : Message := ⟨db.next_msg_id, conv.id, current_user, recipient_id, content, now⟩
    let db1 : DB := { db with messages := db.messages ++ [msg],
                              next_msg_id := db.next_msg_id + 1 }
    let _sender := db1.users.find? (fun u => u.id == current_user)
    let _receiver := db1.users.find? (fun u => u.id == recipient_id)
    (db1, .error "NameError: name emit is not defined")

/-- `handle_chat(recipient_id)` (app.py lines 372-423): look the conversation
up by canonical pair; on POST create it if absent; on GET return `[]` if
absent; then either append the message (POST — the subsequent `emit` call then
always raises) or list the conversation's message bodies (GET). -/
def handle_chat (db : DB) (current_user recipient_id : Nat) (method : Method)
    (data : Option String) (now : Nat) : DB × ChatResponse :=
  match findConv db current_user recipient_id with
  | none =>
    match method with
    | .POST =>
      let (db1, conv) := createConv db current_user recipient_id
      postMessage db1 conv current_user recipient_id data now
    | .GET => (db, .messages [])
  | some conv =>
    match method with
    | .POST => postMessage db conv current_user recipient_id data now
    | .GET =>
      (db, .messages ((db.messages.filter
        (fun m => m.conversation_id == conv.id)).map (fun m => m.content)))

/-- The get-or-create pair resolution of `handle_chat` (lines 377-390), taken
on its own as the spec's `getOrCreateConversation`: returns the resulting
state, the conversation identifier, and whether it was newly created. -/
def getOrCreateConversation (db : DB) (userA userB : Nat) : DB × Nat × Bool :=
  match findConv db userA userB with
  | some c => (db, c.id, false)
  | none =>
    let (db1, c) := createConv db userA userB
    (db1, c.id, true)

/-- `Message.query.filter_by(conversation_id=conversation.id).all()` projected
to bodies (app.py lines 422-423). -/
def listMessages (db : DB) (cid : Nat) : List String :=
  (db.messages.filter (fun m => m.conversation_id == cid)).map (fun m => m.content)

/-- `get_all_chats` (app.py lines 365-370): identifiers of the conversations
in which the user is either canonical participant; read-only. -/
def get_all_chats (db : DB) (current_user : Nat) : List Nat :=
  (db.conversations.filter
    (fun c => c.user1_id == current_user || c.user2_id == current_user)).map (fun c => c.id)

/-- A store with no rows, no connected channels and fresh counters. -/
def emptyDB : DB := ⟨[], [], [], [], 0, 0, [], []⟩

end Moringa

namespace Moringa

/-- Claim C1: for distinct users A and B, the get-or-create conversation
operation invoked as (A,B) and as (B,A) resolves to the same conversation
identifier (indeed to the same full result), because both lookup and creation
normalize the pair to (min, max). -/
theorem getOrCreateConversation_symm (db : DB) (a b : Nat) (h : a ≠ b) :
    getOrCreateConversation db a b = getOrCreateConversation db b a := by
  unfold getOrCreateConversation findConv createConv
  rw [Nat.min_comm a b, Nat.max_comm a b]

/-- Witness for C1 at a concrete store and pair. -/
theorem getOrCreateConversation_symm_witness :
    (1 : Nat) ≠ 2 ∧
      getOrCreateConversation emptyDB 1 2 = getOrCreateConversation emptyDB 2 1 :=
  ⟨by decide, getOrCreateConversation_symm emptyDB 1 2 (by decide)⟩

/-! Helper lemmas: which fields of the store each branch of the POST body
touches.  `postMessage` never touches the conversation table or the
conversation counter, and commits the message row before the receiver lookup
that can fail. -/

lemma postMessage_conversations (db : DB) (conv : Conversation) (a b : Nat)
    (d : Option String) (now : Nat) :
    (postMessage db conv a b d now).1.conversations = db.conversations := by
  cases d <;> rfl

lemma postMessage_next_conv_id (db : DB) (conv : Conversation) (a b : Nat)
    (d : Option String) (now : Nat) :
    (postMessage db conv a b d now).1.next_conv_id = db.next_conv_id := by
  cases d <;> rfl

lemma postMessage_messages_some (db : DB) (conv : Conversation) (a b : Nat)
    (s : String) (now : Nat) :
    (postMessage db conv a b (some s) now).1.messages =
      db.messages ++ [⟨db.next_msg_id, conv.id, a, b, s, now⟩] := rfl

lemma postMessage_none (db : DB) (conv : Conversation) (a b : Nat) (now : Nat) :
    postMessage db conv a b none now = (db, .error "KeyError: content") := rfl

/-- Claim C4: a GET on a pair whose conversation was never created returns the
empty list and leaves the store untouched, and a GET on an existing
conversation with zero messages likewise returns the empty list and leaves the
store untouched; reads never create a conversation. -/
theorem empty_read (db : DB) (a b : Nat) (d : Option String) (now : Nat) :
    (findConv db a b = none → handle_chat db a b .GET d now = (db, .messages [])) ∧
    ∀ conv, findConv db a b = some conv → listMessages db conv.id = [] →
      handle_chat db a b .GET d now = (db, .messages []) := by
  constructor
  · intro h
    unfold handle_chat
    rw [h]
  · intro conv h hm
    unfold handle_chat
    rw [h]
    unfold listMessages at hm
    simp only [hm]

/-- Store with an existing conversation between users 1 and 2 and no messages. -/
def dbConvOnly : DB := ⟨[], [], [⟨0, 1, 2⟩], [], 1, 0, [], []⟩

/-- Witness for C4 at concrete stores: never-created pair, and existing
conversation with zero messages. -/
theorem empty_read_witness :
    handle_chat emptyDB 1 2 .GET none 0 = (emptyDB, .messages []) ∧
    handle_chat dbConvOnly 1 2 .GET none 0 = (dbConvOnly, .messages []) :=
  ⟨(empty_read emptyDB 1 2 none 0).1 rfl,
   (empty_read dbConvOnly 1 2 none 0).2 ⟨0, 1, 2⟩ rfl rfl⟩

/-- Store containing only the user with identifier 1. -/
def dbOneUser : DB := ⟨[⟨1, "alice"⟩], [], [], [], 0, 0, [], []⟩

/-- Counterexample to claim C3: a POST by user 1 to recipient 1 (self) is not
rejected with a validation error — it proceeds, committing a Conversation row
with `user1_id = user2_id = 1` and the message row; the 500 it then returns
is the generic NameError raised at the unimported `emit`, which every message
POST hits, not a rejection of the self-conversation. -/
theorem self_conversation_not_rejected :
    (handle_chat dbOneUser 1 1 .POST (some "hi") 0).1.conversations =
      [⟨0, 1, 1⟩] ∧
    (handle_chat dbOneUser 1 1 .POST (some "hi") 0).1.messages =
      [⟨0, 0, 1, 1, "hi", 0⟩] ∧
    (handle_chat dbOneUser 1 1 .POST (some "hi") 0).2 =
      .error "NameError: name emit is not defined" := by
  decide

/-- Amended C3: `handle_chat` performs no self-conversation validation: invoked
with `userA = userB = U` on POST it proceeds and creates a Conversation row
with both participants equal to U (`min U U = max U U = U`). -/
theorem self_conversation_creates_row (db : DB) (u : Nat) (s : String) (now : Nat)
    (h : findConv db u u = none) :
    (handle_chat db u u .POST (some s) now).1.conversations =
      db.conversations ++ [⟨db.next_conv_id, u, u⟩] := by
  unfold handle_chat
  rw [h]
  simp only [createConv, postMessage_conversations, Nat.min_self, Nat.max_self]

/-- Witness for amended C3 at a concrete store. -/
theorem self_conversation_creates_row_witness :
    (handle_chat dbOneUser 1 1 .POST (some "hi") 0).1.conversations =
      dbOneUser.conversations ++ [⟨0, 1, 1⟩] :=
  self_conversation_creates_row dbOneUser 1 "hi" 0 rfl

/-- Counterexample to claim C6: a POST whose JSON body lacks the `content`
field terminates with an error, yet the store is mutated — the conversation
created for the fresh pair was committed before `data['content']` was read. -/
theorem chat_error_mutates_store :
    (handle_chat emptyDB 1 2 .POST none 0).2 = .error "KeyError: content" ∧
    (handle_chat emptyDB 1 2 .POST none 0).1.conversations = [⟨0, 1, 2⟩] ∧
    emptyDB.conversations = [] := by
  decide

/-- Amended C6: each individual commit is atomic, but an operation is not
atomic across its commits.  Reads never mutate the store; a POST failing on a
missing `content` field appends no Message row and delivers no event (though,
per the counterexample, a Conversation row committed earlier in the same
request remains). -/
theorem chat_error_atomicity_amended (db : DB) (a b : Nat) (d : Option String)
    (now : Nat) :
    (handle_chat db a b .GET d now).1 = db ∧
    (handle_chat db a b .POST none now).1.messages = db.messages ∧
    (handle_chat db a b .POST none now).1.delivered = db.delivered := by
  refine ⟨?_, ?_, ?_⟩ <;>
    · unfold handle_chat
      cases h : findConv db a b <;> simp [createConv, postMessage_none]

/-- A GET on an existing conversation lists that conversation's message bodies
and leaves the store unchanged. -/
lemma handle_chat_get_some (db : DB) (a b : Nat) (conv : Conversation)
    (d : Option String) (now : Nat) (h : findConv db a b = some conv) :
    handle_chat db a b .GET d now = (db, .messages (listMessages db conv.id)) := by
  unfold handle_chat listMessages
  rw [h]

/-- `findConv` reads only the conversation table. -/
lemma findConv_congr (db db' : DB) (hc : db'.conversations = db.conversations)
    (a b : Nat) : findConv db' a b = findConv db a b := by
  unfold findConv
  rw [hc]

/-- Counterexample to claim C10: a message-post with a missing `content` field
on a fresh distinct pair creates the conversation but appends no message — an
empty conversation does arise from a write, and the subsequent GET lists no
message. -/
theorem write_creates_empty_conversation :
    (handle_chat emptyDB 3 4 .POST none 0).1.conversations.length = 1 ∧
    (handle_chat emptyDB 3 4 .POST none 0).1.messages = [] ∧
    (handle_chat emptyDB 3 4 .POST none 0).2 = .error "KeyError: content" ∧
    (handle_chat (handle_chat emptyDB 3 4 .POST none 0).1 3 4 .GET none 0).2 =
      .messages [] := by
  decide

/-- Amended C10: for distinct users with no existing conversation, a
message-post that does supply a content field creates the canonical
conversation and appends the message in that one call, and listing the pair's
messages immediately afterwards returns exactly that message (a post missing
its content field can instead, per the counterexample, leave the conversation
empty). -/
theorem fused_create_and_append (db : DB) (a b : Nat) (s : String) (now : Nat)
    (hne : a ≠ b) (h : findConv db a b = none)
    (hfresh : ∀ m ∈ db.messages, m.conversation_id ≠ db.next_conv_id) :
    findConv (handle_chat db a b .POST (some s) now).1 a b =
      some ⟨db.next_conv_id, min a b, max a b⟩ ∧
    (handle_chat (handle_chat db a b .POST (some s) now).1 a b .GET none now).2 =
      .messages [s] := by
  have hconvs : (handle_chat db a b .POST (some s) now).1.conversations =
      db.conversations ++ [⟨db.next_conv_id, min a b, max a b⟩] := by
    unfold handle_chat
    rw [h]
    simp only [createConv, postMessage_conversations]
  have hmsgs : (handle_chat db a b .POST (some s) now).1.messages =
      db.messages ++ [⟨db.next_msg_id, db.next_conv_id, a, b, s, now⟩] := by
    unfold handle_chat
    rw [h]
    simp only [createConv, postMessage_messages_some]
  have hfind : findConv (handle_chat db a b .POST (some s) now).1 a b =
      some ⟨db.next_conv_id, min a b, max a b⟩ := by
    unfold findConv at h ⊢
    rw [hconvs, List.find?_append, h]
    simp
  refine ⟨hfind, ?_⟩
  rw [handle_chat_get_some _ _ _ _ _ _ hfind]
  unfold listMessages
  rw [hmsgs, List.filter_append]
  have hnil : db.messages.filter
      (fun m => m.conversation_id == (⟨db.next_conv_id, min a b, max a b⟩ :
        Conversation).id) = [] := by
    rw [List.filter_eq_nil_iff]
    intro m hm
    simpa using hfresh m hm
  rw [hnil]
  simp

/-- Witness for amended C10 at a concrete store. -/
theorem fused_create_and_append_witness :
    findConv (handle_chat emptyDB 1 2 .POST (some "hello") 7).1 1 2 =
      some ⟨0, 1, 2⟩ ∧
    (handle_chat (handle_chat emptyDB 1 2 .POST (some "hello") 7).1 1 2 .GET
      none 7).2 = .messages ["hello"] := by
  simpa using fused_create_and_append emptyDB 1 2 "hello" 7 (by decide) rfl
    (by simp [emptyDB])

/-- A POST on an existing conversation leaves the conversation table unchanged
and appends exactly its message row. -/
lemma handle_chat_post_step (db : DB) (a b : Nat) (conv : Conversation)
    (s : String) (now : Nat) (h : findConv db a b = some conv) :
    (handle_chat db a b .POST (some s) now).1.conversations = db.conversations ∧
    (handle_chat db a b .POST (some s) now).1.messages =
      db.messages ++ [⟨db.next_msg_id, conv.id, a, b, s, now⟩] := by
  unfold handle_chat
  rw [h]
  exact ⟨postMessage_conversations .., postMessage_messages_some ..⟩

/-- A sequence of message-posts between the same two users, each carrying its
content and its creation time. -/
def runPosts (db : DB) (a b : Nat) (items : List (String × Nat)) : DB :=
  items.foldl (fun d it => (handle_chat d a b .POST (some it.1) it.2).1) db

lemma runPosts_spec (a b : Nat) (items : List (String × Nat)) :
    ∀ (db : DB) (conv : Conversation), findConv db a b = some conv →
      (runPosts db a b items).conversations = db.conversations ∧
      listMessages (runPosts db a b items) conv.id =
        listMessages db conv.id ++ items.map Prod.fst := by
  induction items with
  | nil =>
    intro db conv _
    simp [runPosts]
  | cons it rest ih =>
    intro db conv h
    have hstep := handle_chat_post_step db a b conv it.1 it.2 h
    have hrun : runPosts db a b (it :: rest) =
        runPosts (handle_chat db a b .POST (some it.1) it.2).1 a b rest := by
      simp [runPosts]
    have h1 : findConv (handle_chat db a b .POST (some it.1) it.2).1 a b =
        some conv := by
      rw [findConv_congr _ _ hstep.1]
      exact h
    obtain ⟨hc, hm⟩ := ih (handle_chat db a b .POST (some it.1) it.2).1 conv h1
    have hone : listMessages (handle_chat db a b .POST (some it.1) it.2).1 conv.id =
        listMessages db conv.id ++ [it.1] := by
      unfold listMessages
      rw [hstep.2, List.filter_append]
      simp
    constructor
    · rw [hrun, hc, hstep.1]
    · rw [hrun, hm, hone, List.append_assoc]
      simp

/-- Claim C5: for an existing conversation, any sequence of message appends is
listed back oldest first, in exactly the order appended, after any messages
the conversation already had; the most recently appended message is last.  The
final GET observes the same list. -/
theorem order_preservation (items : List (String × Nat)) (db : DB) (a b : Nat)
    (conv : Conversation) (h : findConv db a b = some conv) :
    listMessages (runPosts db a b items) conv.id =
      listMessages db conv.id ++ items.map Prod.fst ∧
    (handle_chat (runPosts db a b items) a b .GET none 0).2 =
      .messages (listMessages db conv.id ++ items.map Prod.fst) := by
  obtain ⟨hc, hm⟩ := runPosts_spec a b items db conv h
  refine ⟨hm, ?_⟩
  have hfind : findConv (runPosts db a b items) a b = some conv := by
    rw [findConv_congr _ _ hc]
    exact h
  rw [handle_chat_get_some _ _ _ _ _ _ hfind, hm]

/-- Witness for C5 at a concrete store: two appends to an existing, initially
empty conversation list back in append order. -/
theorem order_preservation_witness :
    listMessages (runPosts dbConvOnly 1 2 [("a", 1), ("b", 2)]) 0 = ["a", "b"] ∧
    (handle_chat (runPosts dbConvOnly 1 2 [("a", 1), ("b", 2)]) 1 2 .GET none 0).2 =
      .messages ["a", "b"] :=
  order_preservation [("a", 1), ("b", 2)] dbConvOnly 1 2 ⟨0, 1, 2⟩ rfl

/-- One sequentially executed chat operation: a `/chats/<recipient_id>`
request (GET or POST) or a read-only `/chats` listing. -/
inductive ChatOp where
  | chat (current_user recipient_id : Nat) (method : Method)
         (data : Option String) (now : Nat)
  | allChats (current_user : Nat)
deriving Repr

/-- State transition of one chat operation; `get_all_chats` is read-only. -/
def applyOp (db : DB) : ChatOp → DB
  | .chat u r m d t => (handle_chat db u r m d t).1
  | .allChats _ => db

/-- Sequential execution of a list of chat operations. -/
def runOps (db : DB) (ops : List ChatOp) : DB := ops.foldl applyOp db

/-- The conversation-store invariant: canonical participant order in every
row, and no two rows with the same canonical pair. -/
def canonicalInv (db : DB) : Prop :=
  (∀ c ∈ db.conversations, c.user1_id ≤ c.user2_id) ∧
  (db.conversations.map (fun c => (c.user1_id, c.user2_id))).Nodup

/-- A chat request either leaves the conversation table unchanged or, when the
canonical-pair lookup failed, appends the one freshly canonicalized row. -/
lemma handle_chat_conversations (db : DB) (a b : Nat) (m : Method)
    (d : Option String) (now : Nat) :
    (handle_chat db a b m d now).1.conversations = db.conversations ∨
    (findConv db a b = none ∧
      (handle_chat db a b m d now).1.conversations =
        db.conversations ++ [⟨db.next_conv_id, min a b, max a b⟩]) := by
  unfold handle_chat
  cases h : findConv db a b with
  | none =>
    cases m with
    | GET => exact Or.inl rfl
    | POST =>
      exact Or.inr ⟨rfl, by simp only [createConv, postMessage_conversations]⟩
  | some conv =>
    cases m with
    | GET => exact Or.inl rfl
    | POST => exact Or.inl (postMessage_conversations ..)

lemma canonicalInv_applyOp (db : DB) (op : ChatOp) (hinv : canonicalInv db) :
    canonicalInv (applyOp db op) := by
  cases op with
  | allChats u => exact hinv
  | chat u r m d t =>
    show canonicalInv (handle_chat db u r m d t).1
    rcases handle_chat_conversations db u r m d t with hsame | ⟨hnone, happ⟩
    · unfold canonicalInv at hinv ⊢
      rw [hsame]
      exact hinv
    · obtain ⟨hord, hnd⟩ := hinv
      have hnotmem : (min u r, max u r) ∉
          db.conversations.map (fun c => (c.user1_id, c.user2_id)) := by
        intro hmem
        rw [List.mem_map] at hmem
        obtain ⟨c, hc, hceq⟩ := hmem
        unfold findConv at hnone
        have hp := List.find?_eq_none.mp hnone c hc
        apply hp
        have h1 : c.user1_id = min u r := congrArg Prod.fst hceq
        have h2 : c.user2_id = max u r := congrArg Prod.snd hceq
        simp [h1, h2]
      unfold canonicalInv
      rw [happ]
      constructor
      · intro c hc
        rcases List.mem_append.mp hc with h1 | h2
        · exact hord c h1
        · have : c = ⟨db.next_conv_id, min u r, max u r⟩ := by simpa using h2
          rw [this]
          exact min_le_max
      · rw [List.map_append]
        simp only [List.map_cons, List.map_nil, List.nodup_append,
          List.nodup_singleton, List.disjoint_singleton]
        exact ⟨hnd, trivial, hnotmem⟩

lemma canonicalInv_runOps (ops : List ChatOp) :
    ∀ db : DB, canonicalInv db → canonicalInv (runOps db ops) := by
  induction ops with
  | nil => intro db h; exact h
  | cons op rest ih =>
    intro db h
    have : runOps db (op :: rest) = runOps (applyOp db op) rest := by
      simp [runOps]
    rw [this]
    exact ih _ (canonicalInv_applyOp db op h)

/-- A list whose image under `f` is duplicate-free and constantly `k` has at
most one element. -/
lemma length_le_one_of_nodup_const {α β : Type} (l : List α) (f : α → β) (k : β)
    (hnd : (l.map f).Nodup) (hk : ∀ x ∈ l, f x = k) : l.length ≤ 1 := by
  cases l with
  | nil => simp
  | cons x xs =>
    cases xs with
    | nil => simp
    | cons y ys =>
      exfalso
      rw [List.map_cons, List.nodup_cons] at hnd
      apply hnd.1
      rw [List.map_cons]
      have hx := hk x (by simp)
      have hy := hk y (by simp)
      simp [hx, hy]

/-- Among rows in canonical order with duplicate-free canonical keys, at most
one row has participant set `{A, B}`. -/
lemma at_most_one_pair (convs : List Conversation)
    (hord : ∀ c ∈ convs, c.user1_id ≤ c.user2_id)
    (hnd : (convs.map (fun c => (c.user1_id, c.user2_id))).Nodup) (A B : Nat) :
    (convs.filter (fun c => (c.user1_id == A && c.user2_id == B) ||
        (c.user1_id == B && c.user2_id == A))).length ≤ 1 := by
  apply length_le_one_of_nodup_const _ (fun c => (c.user1_id, c.user2_id))
    (min A B, max A B)
  · exact hnd.sublist ((List.filter_sublist _).map _)
  · intro c hc
    have hmem := List.mem_of_mem_filter hc
    have hordc := hord c hmem
    have hp := List.of_mem_filter hc
    simp only [Bool.or_eq_true, Bool.and_eq_true, beq_iff_eq] at hp
    rcases hp with ⟨h1, h2⟩ | ⟨h1, h2⟩
    · rw [h1, h2]
      rw [h1, h2] at hordc
      simp [Nat.min_eq_left hordc, Nat.max_eq_right hordc]
    · rw [h1, h2]
      rw [h1, h2] at hordc
      simp [Nat.min_eq_right hordc, Nat.max_eq_left hordc, Nat.min_comm,
        Nat.max_comm]

/-- Claim C2: starting from a store with no conversations, after any sequence
of sequentially executed chat operations every Conversation row satisfies
`user1_id ≤ user2_id`, the canonical pairs are duplicate-free, and for any two
distinct users at most one row has participant set `{A, B}`. -/
theorem conversation_store_invariant (db0 : DB) (ops : List ChatOp)
    (h : db0.conversations = []) :
    (∀ c ∈ (runOps db0 ops).conversations, c.user1_id ≤ c.user2_id) ∧
    ((runOps db0 ops).conversations.map
      (fun c => (c.user1_id, c.user2_id))).Nodup ∧
    ∀ A B : Nat, A ≠ B →
      ((runOps db0 ops).conversations.filter
        (fun c => (c.user1_id == A && c.user2_id == B) ||
          (c.user1_id == B && c.user2_id == A))).length ≤ 1 := by
  have h0 : canonicalInv db0 := by
    unfold canonicalInv
    rw [h]
    simp
  obtain ⟨hord, hnd⟩ := canonicalInv_runOps ops db0 h0
  exact ⟨hord, hnd, fun A B _ => at_most_one_pair _ hord hnd A B⟩

/-- A concrete mixed workload: both orientations of the pair (1,2), a
self-chat, a GET on an absent pair, and a read-only listing. -/
def opsEx : List ChatOp :=
  [.chat 1 2 .POST (some "a") 0, .chat 2 1 .POST (some "b") 1,
   .chat 1 1 .POST (some "c") 2, .chat 3 4 .GET none 3, .allChats 1]

/-- Witness for C2 at the concrete workload. -/
theorem conversation_store_invariant_witness :
    emptyDB.conversations = [] ∧ (1 : Nat) ≠ 2 ∧
    ((runOps emptyDB opsEx).conversations.filter
      (fun c => (c.user1_id == 1 && c.user2_id == 2) ||
        (c.user1_id == 2 && c.user2_id == 1))).length ≤ 1 :=
  ⟨rfl, by decide,
   (conversation_store_invariant emptyDB opsEx rfl).2.2 1 2 (by decide)⟩

/-- Store with two users, an avatar for user 2, and two connected channels. -/
def dbChat : DB :=
  ⟨[⟨1, "alice"⟩, ⟨2, "bob"⟩], [⟨2, some "pic.png"⟩], [], [], 0, 0, [10, 11], []⟩

/-- Claim C9, evaluated at its failing input (a well-formed message POST with
both users present and two connected channels): because `emit` is never
imported in the module, the request answers the 500 NameError instead of 201,
and no event is delivered to any channel — even though the message row was
already committed.  The broadcast-to-all delivery the claim (and the code's
own `emit(..., broadcast=True)` call with its fixed payload) intends never
happens. -/
theorem broadcast_never_delivers :
    (handle_chat dbChat 1 2 .POST (some "yo") 5).2 =
      .error "NameError: name emit is not defined" ∧
    (handle_chat dbChat 1 2 .POST (some "yo") 5).1.delivered = [] ∧
    (handle_chat dbChat 1 2 .POST (some "yo") 5).1.messages.map
      (fun m => m.content) = ["yo"] := by
  decide

/-- Row of the `comments` table.  The body column is named `text` in revision
20250427081731's `post_comment` and read as `comment.body` in revision
20250507145350's tree builder; it is the single `body` field here. -/
structure Comment where
  id : Nat
  content_id : Nat
  user_id : Nat
  body : String
  parent_comment_id : Option Nat
  created_at : Nat
deriving DecidableEq, Repr

/-- Node of the threaded-comment tree returned by `build_comment_tree`:
`{'id': ..., 'user': ..., 'body': ..., 'created_at': ..., 'replies': [...]}`. -/
inductive CommentNode where
  | mk (id : Nat) (user : String) (body : String) (created_at : Nat)
       (replies : List CommentNode)

/-- `comment.user.username`.  For a row whose author is absent the source
would raise at attribute access; no claim exercises that path, so the lookup
defaults to the empty string there. -/
def usernameOf (users : List User) (uid : Nat) : String :=
  match users.find? (fun u => u.id == uid) with
  | some u => u.username
  | none => ""

/-- Modelled from the spec: the `Comment.replies` ORM relationship (models.py
is not among the sources) — the comment's direct replies, in creation order. -/
def repliesOf (comments : List Comment) (cid : Nat) : List Comment :=
  comments.filter (fun c => c.parent_comment_id == some cid)

/-- `build_comment_tree(comment)` (app.py lines 313-320).  The source recurses
unboundedly over `comment.replies`; the embedding carries fuel, and
`comments.length` fuel is enough for any acyclic table since each nesting
level consumes at least one distinct comment. -/
def build_comment_tree (users : List User) (comments : List Comment) :
    Nat → Comment → CommentNode
  | 0, c => .mk c.id (usernameOf users c.user_id) c.body c.created_at []
  | fuel + 1, c =>
      .mk c.id (usernameOf users c.user_id) c.body c.created_at
        ((repliesOf comments c.id).map (build_comment_tree users comments fuel))

/-- `get_threaded_comments(content_id)` (app.py lines 307-311): all comments of
the content with a null parent, each expanded into its reply tree. -/
def get_threaded_comments (users : List User) (comments : List Comment)
    (content_id : Nat) : List CommentNode :=
  (comments.filter (fun c => c.content_id == content_id &&
      c.parent_comment_id.isNone)).map
    (build_comment_tree users comments comments.length)

/-- The non-recursive fields of a tree node. -/
def nodeInfo : CommentNode → Nat × String × String × Nat
  | .mk i u b t _ => (i, u, b, t)

lemma nodeInfo_build (users : List User) (comments : List Comment) (f : Nat)
    (c : Comment) :
    nodeInfo (build_comment_tree users comments f c) =
      (c.id, usernameOf users c.user_id, c.body, c.created_at) := by
  cases f <;> rfl

/-- Authors of the depth-3 example thread. -/
def exUsers : List User := [⟨1, "alice"⟩, ⟨2, "bob"⟩, ⟨3, "carol"⟩]

/-- Comments C1 (root on content 10), C2 replying to C1, C3 replying to C2. -/
def exComments : List Comment :=
  [⟨1, 10, 1, "c1", none, 100⟩, ⟨2, 10, 2, "c2", some 1, 101⟩,
   ⟨3, 10, 3, "c3", some 2, 102⟩]

/-- Claim C7: the tree builder returns one node per null-parent comment of the
content, each carrying the comment's id, author display name, body and
creation timestamp; and on the depth-3 example it returns the single root C1
containing one child C2 containing one child C3, nesting reproduced exactly. -/
theorem threaded_tree_construction :
    get_threaded_comments exUsers exComments 10 =
      [.mk 1 "alice" "c1" 100
        [.mk 2 "bob" "c2" 101 [.mk 3 "carol" "c3" 102 []]]] ∧
    ∀ (users : List User) (comments : List Comment) (cid : Nat),
      (get_threaded_comments users comments cid).map nodeInfo =
        (comments.filter (fun c => c.content_id == cid &&
            c.parent_comment_id.isNone)).map
          (fun c => (c.id, usernameOf users c.user_id, c.body, c.created_at)) := by
  constructor
  · rfl
  · intro users comments cid
    unfold get_threaded_comments
    rw [List.map_map]
    exact List.map_congr_left
      (fun c _ => nodeInfo_build users comments comments.length c)

/-- A comment-creation request body; the client may supply a parent comment
reference. -/
structure CommentRequest where
  content_id : Nat
  text : String
  parent_comment_id : Option Nat
deriving DecidableEq, Repr

/-- `post_comment` (app.py revision 20250427081731, lines 214-222): builds
`Comment(user_id=current_user, content_id=data['content_id'],
text=data['text'])`, adds and commits it, and answers 201 (`true`).  Nothing
in the handler reads the request's parent reference, so the row's parent link
is the model default, null. -/
def post_comment (comments : List Comment) (next_id : Nat) (current_user : Nat)
    (data : CommentRequest) (now : Nat) : List Comment × Bool :=
  (comments ++ [⟨next_id, data.content_id, current_user, data.text, none, now⟩],
   true)

/-- Comment table holding one comment (id 5) that belongs to content 2. -/
def dbComments : List Comment := [⟨5, 2, 1, "parent on content two", none, 50⟩]

/-- Counterexample to claim C8: a comment-creation request for content 1 whose
`parent_comment_id` names comment 5 — which belongs to content 2 — is not
rejected: it answers 201 and a new Comment row is created. -/
theorem cross_content_reply_not_rejected :
    ((dbComments.find? (fun c => c.id == 5)).map Comment.content_id = some 2) ∧
    (post_comment dbComments 6 3 ⟨1, "reply", some 5⟩ 60).2 = true ∧
    (post_comment dbComments 6 3 ⟨1, "reply", some 5⟩ 60).1.length = 2 := by
  decide

/-- Amended C8: `post_comment` never validates a supplied parent reference —
its result is independent of the request's `parent_comment_id`, and the row it
creates always carries a null parent link, so cross-content replies are
silently accepted as new top-level comments. -/
theorem post_comment_ignores_parent (comments : List Comment) (n u cid : Nat)
    (txt : String) (p p' : Option Nat) (now : Nat) :
    post_comment comments n u ⟨cid, txt, p⟩ now =
      post_comment comments n u ⟨cid, txt, p'⟩ now ∧
    (post_comment comments n u ⟨cid, txt, p⟩ now).1 =
      comments ++ [⟨n, cid, u, txt, none, now⟩] :=
  ⟨rfl, rfl⟩

end Moringa
